import Mathlib

/-!
Shallow embedding of the blynk_io Rust client (message codec, client
protocol layer and session state machine) together with proofs about the
properties the specification states.

Conventions of the embedding:
* Rust byte slices are `List Nat` with every element a byte value; machine
  integers are `Nat` with explicit `% 2 ^ w` where the Rust code casts or
  where wrap-around can occur (`u16` ids and lengths use `% 65536`).
* A Rust `String` is its UTF-8 byte sequence, so message body fields are
  `List Nat`; the `String::from_utf8` check of the source is the executable
  `validUtf8` predicate below.
* Fallible Rust code returns a sum type; a Rust panic (from `expect`,
  `unwrap`, `panic` with bang, or an out-of-bounds slice index) is a
  distinguished `panic` outcome, kept separate from returned errors.
* Wall-clock instants are `Nat` milliseconds; each function receives the
  values produced by its `Instant::now()` calls as explicit arguments.
-/

namespace BlynkRs

/-- MessageType from src/message.rs, a `repr(u8)` enum. -/
inductive MessageType where
  | Rsp
  | Login
  | Ping
  | Tweet
  | Email
  | Notify
  | Bridge
  | HwSync
  | Internal
  | Property
  | Hw
  | Redirect
deriving DecidableEq, Repr

/-- Numeric discriminant of each MessageType (the `mtype as u8` view). -/
def MessageType.code : MessageType → Nat
  | .Rsp => 0
  | .Login => 2
  | .Ping => 6
  | .Tweet => 12
  | .Email => 13
  | .Notify => 14
  | .Bridge => 15
  | .HwSync => 16
  | .Internal => 17
  | .Property => 19
  | .Hw => 20
  | .Redirect => 41

/-- MessageType::try_from (derived TryFromPrimitive): recognizes exactly the
declared discriminants. -/
def MessageType.ofCode (n : Nat) : Option MessageType :=
  if n = 0 then some .Rsp
  else if n = 2 then some .Login
  else if n = 6 then some .Ping
  else if n = 12 then some .Tweet
  else if n = 13 then some .Email
  else if n = 14 then some .Notify
  else if n = 15 then some .Bridge
  else if n = 16 then some .HwSync
  else if n = 17 then some .Internal
  else if n = 19 then some .Property
  else if n = 20 then some .Hw
  else if n = 41 then some .Redirect
  else none

/-- ProtocolStatus from src/message.rs, a `repr(u16)` enum. -/
inductive ProtocolStatus where
  | StatusInvalidToken
  | StatusNoData
  | StatusOk
  | VpinMaxNum
deriving DecidableEq, Repr

/-- Numeric discriminant of each ProtocolStatus. -/
def ProtocolStatus.code : ProtocolStatus → Nat
  | .StatusInvalidToken => 9
  | .StatusNoData => 17
  | .StatusOk => 200
  | .VpinMaxNum => 32

/-- ProtocolStatus::try_from (derived TryFromPrimitive). -/
def ProtocolStatus.ofCode (n : Nat) : Option ProtocolStatus :=
  if n = 9 then some .StatusInvalidToken
  else if n = 17 then some .StatusNoData
  else if n = 200 then some .StatusOk
  else if n = 32 then some .VpinMaxNum
  else none

/-- Message struct from src/message.rs. Body fields are the UTF-8 byte
sequences of the Rust `String`s. -/
structure Message where
  mtype : MessageType
  id : Nat
  size : Option Nat
  status : Option ProtocolStatus
  body : List (List Nat)
deriving DecidableEq, Repr

/-- Closed-interval membership test on byte values. -/
def inRangeB (lo hi c : Nat) : Bool := decide (lo ≤ c) && decide (c ≤ hi)

/-- Continuation byte test for UTF-8 (second and later bytes of a sequence). -/
def contByte (b : Nat) : Bool := inRangeB 0x80 0xBF b

/-- Leading-byte class of the UTF-8 well-formedness table: the class fixes
the sequence length and the admissible range of the first continuation
byte (E0, ED, F0 and F4 carry restricted ranges to exclude overlong forms,
surrogates and values above 0x10FFFF). -/
inductive Utf8Class where
  | one
  | two
  | e0
  | e3
  | ed
  | f0
  | f3
  | f4
  | bad
deriving DecidableEq, Repr

/-- Classify a leading byte per the UTF-8 well-formedness table. -/
def utf8Class (b : Nat) : Utf8Class :=
  if b ≤ 0x7F then .one
  else if 0xC2 ≤ b ∧ b ≤ 0xDF then .two
  else if b = 0xE0 then .e0
  else if (0xE1 ≤ b ∧ b ≤ 0xEC) ∨ b = 0xEE ∨ b = 0xEF then .e3
  else if b = 0xED then .ed
  else if b = 0xF0 then .f0
  else if 0xF1 ≤ b ∧ b ≤ 0xF3 then .f3
  else if b = 0xF4 then .f4
  else .bad

/-- Executable UTF-8 validity of a byte sequence, following the exact
well-formedness rules that `String::from_utf8` enforces. -/
def validUtf8 : List Nat → Bool
  | [] => true
  | b :: rest =>
    match utf8Class b, rest with
    | .one, r => validUtf8 r
    | .two, c1 :: r => contByte c1 && validUtf8 r
    | .e0, c1 :: c2 :: r => inRangeB 0xA0 0xBF c1 && contByte c2 && validUtf8 r
    | .e3, c1 :: c2 :: r => contByte c1 && contByte c2 && validUtf8 r
    | .ed, c1 :: c2 :: r => inRangeB 0x80 0x9F c1 && contByte c2 && validUtf8 r
    | .f0, c1 :: c2 :: c3 :: r =>
      inRangeB 0x90 0xBF c1 && contByte c2 && contByte c3 && validUtf8 r
    | .f3, c1 :: c2 :: c3 :: r => contByte c1 && contByte c2 && contByte c3 && validUtf8 r
    | .f4, c1 :: c2 :: c3 :: r =>
      inRangeB 0x80 0x8F c1 && contByte c2 && contByte c3 && validUtf8 r
    | _, _ => false

/-- Rust `Vec::join` on the NUL separator: `self.body.join("\x7b0}")` of
Message::serialize, at the byte level (separator byte 0). -/
def joinNul : List (List Nat) → List Nat
  | [] => []
  | [f] => f
  | f :: g :: fs => f ++ 0 :: joinNul (g :: fs)

/-- Rust `str::split` on the NUL character: always yields at least one piece;
an empty input yields the single empty piece. -/
def splitNul : List Nat → List (List Nat)
  | [] => [[]]
  | 0 :: rest => [] :: splitNul rest
  | b :: rest =>
    match splitNul rest with
    | [] => [[b]]
    | f :: fs => (b :: f) :: fs

/-- Header size of the `!BHH` ProtocolHeader layout. -/
def ProtocolHeader.SIZE : Nat := 5

/-- ProtocolHeader::write_to: pack `(u8, u16, u16)` big-endian into 5 bytes.
The `% 65536` is the `u16` interpretation of the two wide fields (matching
the `data.len() as u16` cast and the `u16` id at the call site). -/
def ProtocolHeader.write_to (t id value : Nat) : List Nat :=
  [t % 256, id % 65536 / 256, id % 256, value % 65536 / 256, value % 256]

/-- ProtocolHeader::read_from: unpack 5 big-endian bytes, returning the
fields and the remaining input; fails when fewer than 5 bytes are present. -/
def ProtocolHeader.read_from (bytes : List Nat) :
    Option (Nat × Nat × Nat × List Nat) :=
  match bytes with
  | t :: i1 :: i2 :: v1 :: v2 :: rest =>
    some (t, i1 * 256 + i2, v1 * 256 + v2, rest)
  | _ => none

/-- Message::serialize from src/message.rs: join the body fields with NUL,
write the header `(mtype as u8, id, data.len() as u16)`, then append the
body bytes. -/
def Message.serialize (m : Message) : List Nat :=
  let data := joinNul m.body
  ProtocolHeader.write_to m.mtype.code m.id data.length ++ data

/-- Error returns of Message::deserilize (values carried out through the
`Result`): header read failure, the explicit zero-id rejection, an
unrecognized `MessageType` discriminant, and a `from_utf8` failure. -/
inductive DeserError where
  | headerTooShort
  | zeroId
  | unknownType
  | badUtf8
deriving DecidableEq, Repr

/-- Rust panics reachable inside Message::deserilize: the
`expect("Incorrect response status")` on an unrecognized status, the
`panic` macro on an inbound type with no branch, and the unchecked slice
`rsp_data[..h_data]`. -/
inductive PanicKind where
  | badStatus
  | unknownInboundType
  | sliceOutOfBounds
deriving DecidableEq, Repr

/-- Outcome of Message::deserilize: a message, a returned error, or a panic. -/
inductive DeserResult where
  | ok (m : Message)
  | err (e : DeserError)
  | panic (p : PanicKind)
deriving DecidableEq, Repr

/-- Message::deserilize from src/message.rs, clause by clause: read the
header, reject id 0, decode the type, then branch — Rsp/Ping interpret the
value field as a status (panicking via `expect` when unrecognized);
Hw/Bridge/Internal/Redirect slice `h_data` body bytes (panicking when the
input is shorter), validate UTF-8 and split on NUL; every other decoded
type hits the `panic` arm. -/
def Message.deserilize (rsp_data : List Nat) : DeserResult :=
  match ProtocolHeader.read_from rsp_data with
  | none => .err .headerTooShort
  | some (msg_type_raw, msg_id, h_data, rest) =>
    if msg_id = 0 then .err .zeroId
    else
      match MessageType.ofCode msg_type_raw with
      | none => .err .unknownType
      | some msg_type =>
        match msg_type with
        | .Rsp | .Ping =>
          match ProtocolStatus.ofCode h_data with
          | none => .panic .badStatus
          | some st => .ok ⟨msg_type, msg_id, none, some st, []⟩
        | .Hw | .Bridge | .Internal | .Redirect =>
          if rest.length < h_data then .panic .sliceOutOfBounds
          else if validUtf8 (rest.take h_data) then
            .ok ⟨msg_type, msg_id, some h_data, none, splitNul (rest.take h_data)⟩
          else .err .badUtf8
        | _ => .panic .unknownInboundType

/-! ## Client and Protocol layer (src/client.rs) -/

/-- Retry bound RETRIES_TX_MAX_NUM from the conf module of src/lib.rs. -/
def conf.RETRIES_TX_MAX_NUM : Nat := 3

/-- Retry delay RETRIES_TX_DELAY of src/lib.rs, in milliseconds. -/
def conf.RETRIES_TX_DELAY_MS : Nat := 2

/-- Heartbeat period HEARTBEAT_PERIOD of src/lib.rs, in milliseconds. -/
def conf.HEARTBEAT_PERIOD_MS : Nat := 5000

/-- Reconnect back-off RECONNECT_SLEEP of src/lib.rs, in milliseconds. -/
def conf.RECONNECT_SLEEP_MS : Nat := 1000

/-- Client::msg_id from src/client.rs: `self.msg_id += 1; self.msg_id` on the
`u16` counter. The first component is the id handed out, the second the new
counter value (they coincide); the `% 65536` is the wrap-around of the `u16`
increment. -/
def Client.msg_id (msgId : Nat) : Nat × Nat :=
  ((msgId + 1) % 65536, (msgId + 1) % 65536)

/-- Counter value after n calls to Client::msg_id starting from the Default
counter 0; the id allocated by the n-th locally originated send is
`msgIdAfter n`. -/
def msgIdAfter : Nat → Nat
  | 0 => 0
  | n + 1 => (Client.msg_id (msgIdAfter n)).2

/-- Decimal ASCII rendering of a Nat (Rust `to_string` on an unsigned
integer), with fuel for structural recursion. -/
def natDigitsAux : Nat → Nat → List Nat
  | 0, _ => []
  | fuel + 1, n =>
    if n < 10 then [48 + n] else natDigitsAux fuel (n / 10) ++ [48 + n % 10]

/-- Byte sequence of the decimal rendering of a Nat. -/
def natDecimalBytes (n : Nat) : List Nat := natDigitsAux (n + 1) n

/-- Protocol::response from src/client.rs: builds
`Message::new(Rsp, msg_id, None, None, vec![status.to_string()])` — the id
parameter is used as given (Client::msg_id is not called) and the status
code travels as the single decimal body field. -/
def Protocol.response (status msg_id : Nat) : Message :=
  ⟨.Rsp, msg_id, none, none, [natDecimalBytes status]⟩

/-- Protocol::ping from src/client.rs: builds
`Message::new(Ping, self.msg_id(), None, None, vec![])` with a freshly
allocated id. -/
def Protocol.pingMsg (newId : Nat) : Message :=
  ⟨.Ping, newId, none, none, []⟩

/-- Transport behaviour seen by Protocol::send: for every loop iteration n,
whether the `write` call and the `flush` call of that iteration succeed. -/
structure Transport where
  writeOk : Nat → Bool
  flushOk : Nat → Bool

/-- Return value of Protocol::send. -/
inductive SendResult where
  | ok
  | messageSend
deriving DecidableEq, Repr

/-- Observable trace of one Protocol::send call: its result, how many loop
iterations (write attempts) ran, how many sleeps of RETRIES_TX_DELAY were
taken, and which buffers were handed to a successful transport write. -/
structure SendTrace where
  result : SendResult
  attempts : Nat
  sleeps : Nat
  delivered : List (List Nat)
deriving DecidableEq, Repr

/-- Loop body of Protocol::send from src/client.rs: while retries remain,
write then flush; on either failure decrement retries, sleep and continue;
exhausting retries yields the MessageSend error. -/
def sendLoop (tr : Transport) (msg : List Nat) : Nat → Nat → SendTrace
  | _, 0 => ⟨.messageSend, 0, 0, []⟩
  | attempt, retries + 1 =>
    if tr.writeOk attempt then
      if tr.flushOk attempt then ⟨.ok, 1, 0, [msg]⟩
      else
        let r := sendLoop tr msg (attempt + 1) retries
        ⟨r.result, r.attempts + 1, r.sleeps + 1, msg :: r.delivered⟩
    else
      let r := sendLoop tr msg (attempt + 1) retries
      ⟨r.result, r.attempts + 1, r.sleeps + 1, r.delivered⟩

/-- Protocol::send from src/client.rs: run the retry loop with the
RETRIES_TX_MAX_NUM budget. -/
def Protocol.send (tr : Transport) (msg : List Nat) : SendTrace :=
  sendLoop tr msg 0 conf.RETRIES_TX_MAX_NUM

/-! ## Session state machine (src/lib.rs) -/

/-- ConnectionState from src/lib.rs (source spelling kept). -/
inductive ConnectionState where
  | Disconnected
  | Connecting
  | Authentiacting
  | Authenticated
deriving DecidableEq, Repr

/-- Mutable state of the Blynk struct of src/lib.rs that the session logic
reads and writes: the connection state, the Client message-id counter, and
the three liveness timestamps (absolute milliseconds). -/
structure BlynkState where
  conn_state : ConnectionState
  msgId : Nat
  last_rcv_time : Nat
  last_ping_time : Nat
  last_send_time : Nat
deriving DecidableEq, Repr

/-- Blynk::process from src/lib.rs, restricted to its own protocol output:
an inbound Ping is answered by `self.client.response(StatusOk as u16,
msg.id)`; every other type sends nothing. The handler hooks that process
then dispatches to are external collaborators and send nothing themselves.
Returns the state (the id counter is untouched: response does not call
Client::msg_id) and the messages emitted. -/
def Blynk.process (s : BlynkState) (msg : Message) : BlynkState × List Message :=
  if msg.mtype = .Ping then
    (s, [Protocol.response (ProtocolStatus.code .StatusOk) msg.id])
  else (s, [])

/-- Blynk::read_response from src/lib.rs: unconditionally reset
last_rcv_time to the current instant, then attempt one read; a successful
read is passed to Blynk::process, a failed read (empty buffer, timeout or
decode error) is ignored. The read outcome is the readResult argument. -/
def Blynk.read_response (s : BlynkState) (t_now : Nat) (readResult : Option Message) :
    BlynkState × List Message :=
  let s1 := { s with last_rcv_time := t_now }
  match readResult with
  | some msg => Blynk.process s1 msg
  | none => (s1, [])

/-- Blynk::is_server_alive from src/lib.rs: compare the three elapsed
deltas against the heartbeat period; report dead when the receive delta
exceeds 1.5 heartbeats; otherwise maybe send a ping (the `self.client()`
accessor resets last_send_time first, Protocol::ping allocates an id, and
only a successful ping resets last_ping_time); a failed ping send also
reports dead. The t_now argument stands for the instants taken inside the
call, and pingSendOk for the outcome of the ping send if one happens. -/
def Blynk.is_server_alive (s : BlynkState) (t_now : Nat) (pingSendOk : Bool) :
    Bool × BlynkState :=
  let hbeat_ms := conf.HEARTBEAT_PERIOD_MS
  let rcv_delta := t_now - s.last_rcv_time
  let ping_delta := t_now - s.last_ping_time
  let send_delta := t_now - s.last_send_time
  if rcv_delta > hbeat_ms + hbeat_ms / 2 then (false, s)
  else if ping_delta > hbeat_ms / 10 ∧ (send_delta > hbeat_ms ∨ rcv_delta > hbeat_ms) then
    let s1 := { s with
      last_send_time := t_now,
      msgId := (Client.msg_id s.msgId).2 }
    if pingSendOk then (true, { s1 with last_ping_time := t_now })
    else (false, s1)
  else (true, s)

/-- Blynk::disconnect from src/lib.rs: shut the transport down, reset the
Client id counter to 0 and enter Disconnected (the disconnect hook and the
reconnect sleep have no effect on this state). -/
def Blynk.disconnect (s : BlynkState) : BlynkState :=
  { s with conn_state := .Disconnected, msgId := 0 }

/-- Blynk::run from src/lib.rs for a session already in the Authenticated
state (the initial reconnect branch is skipped): call read_response, then
is_server_alive, and disconnect when the latter reports the server dead.
t_read and t_alive are the instants of the two phases, readResult the
outcome of the read, pingSendOk the outcome of a ping send if one
happens. -/
def Blynk.runAuthenticated (s : BlynkState) (t_read t_alive : Nat)
    (readResult : Option Message) (pingSendOk : Bool) : BlynkState × List Message :=
  let p1 := Blynk.read_response s t_read readResult
  let p2 := Blynk.is_server_alive p1.1 t_alive pingSendOk
  if p2.1 then (p2.2, p1.2) else (Blynk.disconnect p2.2, p1.2)

/-- Error values of src/lib.rs that Blynk::authenticate can return. -/
inductive BlynkErrorKind where
  | messageSend
  | emptyBuffer
  | invalidAuthToken
  | redirection
  | readerNotAvailable
  | ioOrDecode
deriving DecidableEq, Repr

/-- Outcome of Blynk::authenticate: success, a returned error, or a Rust
panic aborting the process. -/
inductive AuthOutcome where
  | ok
  | err (e : BlynkErrorKind)
  | panic
deriving DecidableEq, Repr

/-- Blynk::authenticate from src/lib.rs: the login send error propagates
via the question-mark operator; the login reply is obtained through
`self.client.read().unwrap()` — a read failure panics; then, unless the
status is StatusOk, `msg.status.unwrap()` panics when the reply carries no
status, InvalidToken maps to the InvalidAuthToken error, any other non-Ok
status maps to Redirection for a Redirect reply and to the
`panic`-with-message arm otherwise. -/
def Blynk.authenticate (loginResult : Option BlynkErrorKind)
    (readResult : Except BlynkErrorKind Message) : AuthOutcome :=
  match loginResult with
  | some e => .err e
  | none =>
    match readResult with
    | .error _ => .panic
    | .ok msg =>
      match msg.status with
      | some .StatusOk => .ok
      | none => .panic
      | some .StatusInvalidToken => .err .invalidAuthToken
      | some _ => if msg.mtype = .Redirect then .err .redirection else .panic

/-! ## Helper lemmas about the codec -/

/-- Splitting on NUL never produces the empty list of pieces. -/
theorem splitNul_ne_nil (l : List Nat) : splitNul l ≠ [] := by
  induction l with
  | nil => simp [splitNul]
  | cons b rest ih =>
    cases b with
    | zero => simp [splitNul]
    | succ n =>
      simp only [splitNul]
      cases h : splitNul rest <;> simp

/-- Splitting a NUL-free byte sequence yields that sequence as the sole piece. -/
theorem splitNul_no_nul (f : List Nat) (hz : ∀ x ∈ f, x ≠ 0) : splitNul f = [f] := by
  induction f with
  | nil => simp [splitNul]
  | cons b rest ih =>
    have hb : b ≠ 0 := hz b (by simp)
    have hrest : ∀ x ∈ rest, x ≠ 0 := fun x hx => hz x (by simp [hx])
    obtain ⟨n, rfl⟩ : ∃ n, b = n + 1 := ⟨b - 1, by omega⟩
    simp [splitNul, ih hrest]

/-- Splitting after a NUL-free first piece and a separator peels that piece. -/
theorem splitNul_append_nul (f rest : List Nat) (hz : ∀ x ∈ f, x ≠ 0) :
    splitNul (f ++ 0 :: rest) = f :: splitNul rest := by
  induction f with
  | nil => simp [splitNul]
  | cons b g ih =>
    have hb : b ≠ 0 := hz b (by simp)
    obtain ⟨n, rfl⟩ : ∃ n, b = n + 1 := ⟨b - 1, by omega⟩
    have hg : ∀ x ∈ g, x ≠ 0 := fun x hx => hz x (by simp [hx])
    simp [splitNul, ih hg]

/-- Splitting inverts joining for a nonempty list of NUL-free fields. -/
theorem splitNul_joinNul (fs : List (List Nat)) (hne : fs ≠ [])
    (hz : ∀ f ∈ fs, ∀ x ∈ f, x ≠ 0) : splitNul (joinNul fs) = fs := by
  induction fs with
  | nil => exact absurd rfl hne
  | cons f gs ih =>
    cases gs with
    | nil => simpa [joinNul] using splitNul_no_nul f (hz f (by simp))
    | cons g hs =>
      have h1 : ∀ x ∈ f, x ≠ 0 := hz f (by simp)
      have h2 : splitNul (joinNul (g :: hs)) = g :: hs :=
        ih (by simp) (fun q hq => hz q (by simp [hq]))
      simp [joinNul, splitNul_append_nul f _ h1, h2]

/-- UTF-8 validity is closed under concatenation of complete sequences. -/
theorem validUtf8_append (a bs : List Nat) (ha : validUtf8 a = true)
    (hb : validUtf8 bs = true) : validUtf8 (a ++ bs) = true := by
  induction a using validUtf8.induct <;> simp_all [validUtf8]

/-- The join of valid UTF-8 fields on the NUL separator is valid UTF-8. -/
theorem validUtf8_joinNul (fs : List (List Nat))
    (hv : ∀ f ∈ fs, validUtf8 f = true) : validUtf8 (joinNul fs) = true := by
  induction fs with
  | nil => simp [joinNul, validUtf8]
  | cons f gs ih =>
    cases gs with
    | nil => simpa [joinNul] using hv f (by simp)
    | cons g hs =>
      have h1 : validUtf8 f = true := hv f (by simp)
      have h2 : validUtf8 (joinNul (g :: hs)) = true :=
        ih (fun q hq => hv q (by simp [hq]))
      have h3 : validUtf8 (0 :: joinNul (g :: hs)) = true := by
        simpa [validUtf8] using h2
      simpa [joinNul] using validUtf8_append f _ h1 h3

/-- Value of the u16 message-id counter after n allocations. -/
theorem msgIdAfter_eq (n : Nat) : msgIdAfter n = n % 65536 := by
  induction n with
  | zero => simp [msgIdAfter]
  | succ n ih =>
    simp only [msgIdAfter, Client.msg_id, ih]
    omega

/-- Blynk::process returns its state unchanged (the reply id is the
inbound id, so the counter is never advanced). -/
theorem process_fst (s : BlynkState) (m : Message) : (Blynk.process s m).1 = s := by
  unfold Blynk.process
  split <;> rfl

/-- Blynk::read_response leaves conn_state alone and always stamps
last_rcv_time with the instant of the call. -/
theorem read_response_fst (s : BlynkState) (t : Nat) (r : Option Message) :
    (Blynk.read_response s t r).1.conn_state = s.conn_state ∧
    (Blynk.read_response s t r).1.last_rcv_time = t := by
  unfold Blynk.read_response
  cases r with
  | none => exact ⟨rfl, rfl⟩
  | some m => rw [process_fst]; exact ⟨rfl, rfl⟩

/-- Blynk::is_server_alive reports the server alive whenever the measured
receive delta is at most 1.5 heartbeats and the ping send (if one happens)
succeeds. -/
theorem is_server_alive_true (s : BlynkState) (t : Nat)
    (h : t - s.last_rcv_time ≤ conf.HEARTBEAT_PERIOD_MS + conf.HEARTBEAT_PERIOD_MS / 2) :
    (Blynk.is_server_alive s t true).1 = true := by
  unfold Blynk.is_server_alive
  have h1 : ¬ t - s.last_rcv_time > conf.HEARTBEAT_PERIOD_MS + conf.HEARTBEAT_PERIOD_MS / 2 := by
    omega
  by_cases h2 : t - s.last_ping_time > conf.HEARTBEAT_PERIOD_MS / 10 ∧
      (t - s.last_send_time > conf.HEARTBEAT_PERIOD_MS ∨
        t - s.last_rcv_time > conf.HEARTBEAT_PERIOD_MS) <;>
    simp [h1, h2]

/-- Blynk::is_server_alive never touches conn_state. -/
theorem is_server_alive_conn (s : BlynkState) (t : Nat) (p : Bool) :
    (Blynk.is_server_alive s t p).2.conn_state = s.conn_state := by
  unfold Blynk.is_server_alive
  cases p <;>
    by_cases h1 : t - s.last_rcv_time >
      conf.HEARTBEAT_PERIOD_MS + conf.HEARTBEAT_PERIOD_MS / 2 <;>
    by_cases h2 : t - s.last_ping_time > conf.HEARTBEAT_PERIOD_MS / 10 ∧
      (t - s.last_send_time > conf.HEARTBEAT_PERIOD_MS ∨
        t - s.last_rcv_time > conf.HEARTBEAT_PERIOD_MS) <;>
    simp [h1, h2]

/-- Supporting fact for the liveness analysis: because read_response resets
last_rcv_time before is_server_alive measures it, an Authenticated session
whose two in-iteration instants are at most 1.5 heartbeats apart can never
be disconnected by run when the ping send succeeds, no matter how long ago
bytes last arrived from the server. -/
theorem runAuthenticated_never_disconnects (s : BlynkState) (t1 t2 : Nat)
    (readResult : Option Message)
    (hs : s.conn_state = .Authenticated)
    (hdelta : t2 - t1 ≤ conf.HEARTBEAT_PERIOD_MS + conf.HEARTBEAT_PERIOD_MS / 2) :
    (Blynk.runAuthenticated s t1 t2 readResult true).1.conn_state = .Authenticated := by
  have h1 := read_response_fst s t1 readResult
  have halive :
      (Blynk.is_server_alive (Blynk.read_response s t1 readResult).1 t2 true).1 = true := by
    apply is_server_alive_true
    rw [h1.2]
    exact hdelta
  unfold Blynk.runAuthenticated
  simp only [halive, if_true]
  rw [is_server_alive_conn, h1.1]
  exact hs

/-- C1: the spec says that when more than 1.5 heartbeats (7.5 s) have
passed since bytes were last received, the next run of an Authenticated
session disconnects. The code cannot do this: read_response resets
last_rcv_time unconditionally at the top of every iteration (src/lib.rs
line 351), before is_server_alive compares against it, so the measured
receive delta is the duration of the current iteration, not the silence of
the server. Here a session whose last real receive was at time 0 runs at
time 10000 (10 s of silence, well over 7.5 s), reads nothing, and stays
Authenticated. -/
theorem c1_receive_silence_not_detected :
    (Blynk.runAuthenticated ⟨.Authenticated, 5, 0, 9900, 9900⟩ 10000 10000 none true).1.conn_state
        = .Authenticated ∧
    10000 - 0 > conf.HEARTBEAT_PERIOD_MS + conf.HEARTBEAT_PERIOD_MS / 2 := by
  exact ⟨by decide, by decide⟩

/-- C2: an inbound Ping with id N, handed to the dispatcher, produces
exactly one reply: the Rsp-typed message built by Protocol::response with
the StatusOk code and the inbound id N — the id is reused as-is and the
Client id counter is not advanced. The Ok code travels as the single
decimal body field, which is how Protocol::response conveys the status. -/
theorem c2_ping_reply (s : BlynkState) (msg : Message) (h : msg.mtype = .Ping) :
    ((Blynk.process s msg).2 =
        [Protocol.response (ProtocolStatus.code .StatusOk) msg.id]) ∧
    ((Blynk.process s msg).2.length = 1) ∧
    (∀ r ∈ (Blynk.process s msg).2,
      r.mtype = .Rsp ∧ r.id = msg.id ∧
      r.body = [natDecimalBytes (ProtocolStatus.code .StatusOk)]) ∧
    ((Blynk.process s msg).1 = s) := by
  refine ⟨by simp [Blynk.process, h], by simp [Blynk.process, h], ?_, by simp [Blynk.process, h]⟩
  intro r hr
  simp [Blynk.process, h, Protocol.response] at hr
  subst hr
  exact ⟨rfl, rfl, rfl⟩

/-- C2 witness: the dispatcher state with counter 0 answering a Ping with
id 7 emits exactly the response message with id 7. -/
theorem c2_ping_reply_witness :
    (Blynk.process ⟨.Authenticated, 0, 0, 0, 0⟩ ⟨.Ping, 7, none, none, []⟩).2 =
      [Protocol.response (ProtocolStatus.code .StatusOk) 7] :=
  (c2_ping_reply ⟨.Authenticated, 0, 0, 0, 0⟩ ⟨.Ping, 7, none, none, []⟩ rfl).1

/-- C4: the spec says an outbound serialized Response or Ping frame has its
status in the 5-byte header value field and no body. The code disagrees:
Protocol::response renders the status as a decimal body string, so the
serialized frame written for response(StatusOk, 42) carries value 3 (the
body length) and the three body bytes of the text 200; an outbound Ping
frame carries value 0. The frame produced by response cannot be parsed by
the sibling deserilize, which expects a status in the value field and
panics on 3. -/
theorem c4_response_frame_layout :
    (Message.serialize (Protocol.response (ProtocolStatus.code .StatusOk) 42) =
      [0, 0, 42, 0, 3, 50, 48, 48]) ∧
    (Message.serialize (Protocol.pingMsg 7) = [6, 0, 7, 0, 0]) ∧
    (Message.deserilize
        (Message.serialize (Protocol.response (ProtocolStatus.code .StatusOk) 42)) =
      .panic .badStatus) := by
  exact ⟨by decide, by decide, by decide⟩

/-- C5 counterexample: the id counter is a wrapping u16, so the claim that
ids stay strictly increasing and nonzero for any number of sends fails at
the 65536th allocation, which hands out id 0 after the 65535th handed out
65535. -/
theorem c5_wraparound_counterexample :
    msgIdAfter 65536 = 0 ∧ msgIdAfter 65535 = 65535 := by
  rw [msgIdAfter_eq, msgIdAfter_eq]
  omega

/-- C5 (amended): within the first 65535 allocations, ids are nonzero and
strictly increasing, and the first allocated id is 1. -/
theorem c5_id_monotonicity_amended (i j : Nat) (h1 : 1 ≤ i) (h2 : i < j)
    (h3 : j ≤ 65535) :
    msgIdAfter i ≠ 0 ∧ msgIdAfter i < msgIdAfter j ∧ msgIdAfter 1 = 1 := by
  rw [msgIdAfter_eq, msgIdAfter_eq, msgIdAfter_eq]
  omega

/-- C5 witness: the first two allocations at i = 1, j = 2. -/
theorem c5_id_monotonicity_witness :
    msgIdAfter 1 ≠ 0 ∧ msgIdAfter 1 < msgIdAfter 2 ∧ msgIdAfter 1 = 1 :=
  c5_id_monotonicity_amended 1 2 (by decide) (by decide) (by decide)

/-- C6: when every transport write fails, Protocol::send returns the
MessageSend error after exactly RETRIES_TX_MAX_NUM = 3 write attempts,
sleeping the fixed RETRIES_TX_DELAY after each failed attempt, and no
buffer is ever handed to the transport. -/
theorem c6_retry_exhaustion (tr : Transport) (msg : List Nat)
    (h : ∀ n, tr.writeOk n = false) :
    Protocol.send tr msg =
      ⟨.messageSend, conf.RETRIES_TX_MAX_NUM, conf.RETRIES_TX_MAX_NUM, []⟩ := by
  show sendLoop tr msg 0 3 = _
  rw [sendLoop, h, sendLoop, h, sendLoop, h, sendLoop]
  simp [conf.RETRIES_TX_MAX_NUM]

/-- C6 witness: a transport whose writes always fail and flushes always
succeed exhausts the three attempts on a concrete buffer. -/
theorem c6_retry_exhaustion_witness :
    ((⟨fun _ => false, fun _ => true⟩ : Transport).writeOk 0 = false) ∧
    Protocol.send ⟨fun _ => false, fun _ => true⟩ [1, 2, 3] =
      ⟨.messageSend, conf.RETRIES_TX_MAX_NUM, conf.RETRIES_TX_MAX_NUM, []⟩ :=
  ⟨rfl, c6_retry_exhaustion ⟨fun _ => false, fun _ => true⟩ [1, 2, 3] (fun _ => rfl)⟩

/-- C7 counterexample: on the frame with type Rsp, id 1 and value 0 (not a
recognized status code), Message::deserilize does not return an error at
all — it panics through `expect` with the message Incorrect response
status, so the claim that deserialization fails with an InvalidStatus
error is wrong (the error enum of the crate has no such variant and the
panic aborts instead of returning). -/
theorem c7_panic_counterexample :
    Message.deserilize [0, 0, 1, 0, 0] = .panic .badStatus := by
  decide

/-- C7 (amended): for every buffer whose header declares type Rsp (0) or
Ping (6), a nonzero id and a value field outside the recognized codes
9, 17, 200, 32, deserilize panics via the `expect` on the status
conversion rather than returning an error. -/
theorem c7_bad_status_panics (traw i1 i2 v1 v2 : Nat) (rest : List Nat)
    (ht : traw = 0 ∨ traw = 6) (hid : i1 * 256 + i2 ≠ 0)
    (h9 : v1 * 256 + v2 ≠ 9) (h17 : v1 * 256 + v2 ≠ 17)
    (h200 : v1 * 256 + v2 ≠ 200) (h32 : v1 * 256 + v2 ≠ 32) :
    Message.deserilize (traw :: i1 :: i2 :: v1 :: v2 :: rest) = .panic .badStatus := by
  rcases ht with rfl | rfl <;>
    simp [Message.deserilize, ProtocolHeader.read_from, MessageType.ofCode,
      ProtocolStatus.ofCode, hid, h9, h17, h200, h32]

/-- C7 witness: the amended statement applied to the concrete frame
type Ping, id 1, value 1. -/
theorem c7_bad_status_panics_witness :
    Message.deserilize [6, 0, 1, 0, 1] = .panic .badStatus :=
  c7_bad_status_panics 6 0 1 0 1 [] (Or.inr rfl) (by decide) (by decide) (by decide)
    (by decide) (by decide)

/-- C8: a valid 5-byte header declaring a body-bearing type (Hw 20,
Bridge 15, Internal 17, Redirect 41) and a nonzero id, followed by fewer
than the declared number of body bytes, makes deserilize panic on the
unchecked slice `rsp_data[..h_data]` instead of returning an error. -/
theorem c8_short_buffer_panics (traw i1 i2 l1 l2 : Nat) (rest : List Nat)
    (ht : traw = 20 ∨ traw = 15 ∨ traw = 17 ∨ traw = 41)
    (hid : i1 * 256 + i2 ≠ 0)
    (hshort : rest.length < l1 * 256 + l2) :
    Message.deserilize (traw :: i1 :: i2 :: l1 :: l2 :: rest) =
      .panic .sliceOutOfBounds := by
  rcases ht with rfl | rfl | rfl | rfl <;>
    simp [Message.deserilize, ProtocolHeader.read_from, MessageType.ofCode, hid, hshort]

/-- C8 witness: a Hw header with id 1 declaring 5 body bytes and carrying
none. -/
theorem c8_short_buffer_panics_witness :
    Message.deserilize [20, 0, 1, 0, 5] = .panic .sliceOutOfBounds :=
  c8_short_buffer_panics 20 0 1 0 5 [] (Or.inl rfl) (by decide) (by decide)

/-- C10: during authenticate the login reply is fetched with
`read().unwrap()` and its status with `status.unwrap()`, so a failed read
(empty buffer or any decode error) and equally a reply without a status
field (any non-Rsp, non-Ping type) panic and abort the process instead of
returning an error that would enter the disconnect and reconnect cycle. -/
theorem c10_authenticate_unwrap_panics :
    (∀ e : BlynkErrorKind, Blynk.authenticate none (.error e) = .panic) ∧
    (∀ msg : Message, msg.status = none → Blynk.authenticate none (.ok msg) = .panic) := by
  constructor
  · intro e
    rfl
  · intro msg h
    simp [Blynk.authenticate, h]

/-- Inversion helper for the body-bearing branch of deserilize: a
successful outcome pins the message to the decoded record, whose declared
size equals the length of the sliced raw body. -/
theorem body_branch_inv (mt : MessageType) (mid hdata : Nat) (rest : List Nat)
    (m : Message)
    (h : (if rest.length < hdata then DeserResult.panic .sliceOutOfBounds
          else if validUtf8 (List.take hdata rest) = true then
            DeserResult.ok ⟨mt, mid, some hdata, none, splitNul (List.take hdata rest)⟩
          else DeserResult.err .badUtf8) = .ok m) :
    m = ⟨mt, mid, some (List.take hdata rest).length, none,
      splitNul (List.take hdata rest)⟩ := by
  by_cases hlt : rest.length < hdata
  · rw [if_pos hlt] at h
    injection h
  · rw [if_neg hlt] at h
    by_cases hu : validUtf8 (List.take hdata rest) = true
    · rw [if_pos hu] at h
      injection h with h2
      subst h2
      have hl : (List.take hdata rest).length = hdata := by
        rw [List.length_take]
        omega
      rw [hl]
    · rw [if_neg hu] at h
      injection h

/-- Inversion principle for successful deserilize runs: a decoded message
either came through the status branch (Rsp or Ping, empty body, no size)
or through the body branch (one of the four body-bearing types, body split
from a raw byte sequence whose length is the declared size). -/
theorem deserilize_ok_inv (l : List Nat) (m : Message)
    (h : Message.deserilize l = .ok m) :
    (m.body = [] ∧ m.size = none ∧ (m.mtype = .Rsp ∨ m.mtype = .Ping)) ∨
    (∃ raw : List Nat, m.body = splitNul raw ∧ m.size = some raw.length ∧
      (m.mtype = .Hw ∨ m.mtype = .Bridge ∨ m.mtype = .Internal ∨ m.mtype = .Redirect)) := by
  unfold Message.deserilize at h
  rcases hr : ProtocolHeader.read_from l with _ | ⟨traw, mid, hdata, rest⟩ <;> rw [hr] at h
  · injection h
  · dsimp only at h
    by_cases h0 : mid = 0
    · rw [if_pos h0] at h
      injection h
    · rw [if_neg h0] at h
      rcases hc : MessageType.ofCode traw with _ | mt <;> rw [hc] at h
      · injection h
      · cases mt <;>
          first
          | injection h
          | ((rcases hs : ProtocolStatus.ofCode hdata with _ | st <;> rw [hs] at h) <;>
              first
              | (injection h with h2
                 subst h2
                 exact Or.inl ⟨rfl, rfl, by simp⟩)
              | injection h)
          | (have h2 := body_branch_inv _ _ _ _ _ h
             subst h2
             exact Or.inr ⟨List.take hdata rest, rfl, rfl, by simp⟩)


/-- C9: every successfully deserialized body-bearing message (Hw, Bridge,
Internal, Redirect) has at least one body field, because splitting on NUL
never yields an empty list; a declared body length of zero decodes to the
single empty field; and in particular serializing an empty field list and
deserializing gives the one-element body holding the empty string, not the
empty list. -/
theorem c9_body_never_empty :
    (∀ (l : List Nat) (m : Message), Message.deserilize l = .ok m →
      (m.mtype = .Hw ∨ m.mtype = .Bridge ∨ m.mtype = .Internal ∨ m.mtype = .Redirect) →
      m.body ≠ []) ∧
    (∀ (l : List Nat) (m : Message), Message.deserilize l = .ok m →
      m.size = some 0 → m.body = [[]]) ∧
    (Message.deserilize (Message.serialize ⟨.Hw, 1, none, none, []⟩) =
      .ok ⟨.Hw, 1, some 0, none, [[]]⟩) := by
  refine ⟨?_, ?_, by decide⟩
  · intro l m h hbb
    rcases deserilize_ok_inv l m h with ⟨_, _, ht⟩ | ⟨raw, hb, _, _⟩
    · rcases ht with ht | ht <;> rcases hbb with hbb | hbb | hbb | hbb <;> simp [ht] at hbb
    · rw [hb]
      exact splitNul_ne_nil raw
  · intro l m h hs
    rcases deserilize_ok_inv l m h with ⟨_, hsz, _⟩ | ⟨raw, hb, hsz, _⟩
    · rw [hsz] at hs
      exact absurd hs (by simp)
    · rw [hsz] at hs
      have hlen : raw.length = 0 := by
        injection hs
      have hraw : raw = [] := List.eq_nil_of_length_eq_zero hlen
      rw [hb, hraw]
      rfl

/-- C9 witness: the message decoded from the Hw frame with declared body
length 0 has the nonempty body holding exactly the empty field. -/
theorem c9_body_never_empty_witness :
    (⟨.Hw, 1, some 0, none, [[]]⟩ : Message).body ≠ [] ∧
    (⟨.Hw, 1, some 0, none, [[]]⟩ : Message).body = [[]] :=
  ⟨c9_body_never_empty.1 [20, 0, 1, 0, 0] ⟨.Hw, 1, some 0, none, [[]]⟩ (by decide)
      (Or.inl rfl),
   c9_body_never_empty.2.1 [20, 0, 1, 0, 0] ⟨.Hw, 1, some 0, none, [[]]⟩ (by decide) rfl⟩

/-- C3 counterexample: the round trip does not hold for every body of N
fields. With N = 0 fields (first two conjuncts) the joined wire body is
empty and decodes to the one-element body holding the empty field, not to
the original empty list. With one field of 65536 bytes (last two
conjuncts) the `as u16` cast truncates the declared length to 0 and the
decoded body is again the single empty field, not the original field. -/
theorem c3_roundtrip_counterexample :
    (Message.deserilize (Message.serialize ⟨.Hw, 1, none, none, []⟩) =
      .ok ⟨.Hw, 1, some 0, none, [[]]⟩) ∧
    (([[]] : List (List Nat)) ≠ []) ∧
    (Message.deserilize (Message.serialize ⟨.Hw, 1, none, none, [List.replicate 65536 97]⟩) =
      .ok ⟨.Hw, 1, some 0, none, [[]]⟩) ∧
    (([[]] : List (List Nat)) ≠ [List.replicate 65536 97]) := by
  refine ⟨by decide, by decide, ?_, ?_⟩
  · have hjoin : joinNul [List.replicate 65536 97] = List.replicate 65536 97 := rfl
    simp only [Message.serialize, ProtocolHeader.write_to, hjoin, List.length_replicate]
    norm_num
    simp only [Message.deserilize, ProtocolHeader.read_from, List.cons_append,
      List.nil_append]
    norm_num [MessageType.ofCode, MessageType.code]
    decide
  · intro h
    have h2 : ([] : List Nat) = List.replicate 65536 97 := by
      injection h
    have h3 := congrArg List.length h2
    rw [List.length_replicate] at h3
    exact absurd h3 (by decide)

/-- C3 (amended): for a message of type Hw, Bridge, Internal or Redirect
with a nonzero u16 id and at least one body field, the fields valid UTF-8
and free of the byte 0, whose joined body is shorter than 65536 bytes,
deserilize of serialize succeeds and reproduces mtype, id and body
exactly (and reports the size as the wire body length). -/
theorem c3_roundtrip_amended (t : MessageType) (id : Nat) (sz : Option Nat)
    (st : Option ProtocolStatus) (body : List (List Nat))
    (ht : t = .Hw ∨ t = .Bridge ∨ t = .Internal ∨ t = .Redirect)
    (hid : id ≠ 0) (hid2 : id < 65536) (hbody : body ≠ [])
    (hutf : ∀ f ∈ body, validUtf8 f = true)
    (hnul : ∀ f ∈ body, ∀ x ∈ f, x ≠ 0)
    (hlen : (joinNul body).length < 65536) :
    Message.deserilize (Message.serialize ⟨t, id, sz, st, body⟩) =
      .ok ⟨t, id, some (joinNul body).length, none, body⟩ := by
  have hval := validUtf8_joinNul body hutf
  have hsplit := splitNul_joinNul body hbody hnul
  have e1 : id % 65536 / 256 * 256 + id % 256 = id := by omega
  have e2 : (joinNul body).length % 65536 / 256 * 256 + (joinNul body).length % 256 =
      (joinNul body).length := by omega
  rcases ht with rfl | rfl | rfl | rfl <;>
  · simp only [Message.serialize, MessageType.code, ProtocolHeader.write_to,
      List.cons_append, List.nil_append, Message.deserilize, ProtocolHeader.read_from]
    rw [e1, e2, if_neg hid]
    norm_num [MessageType.ofCode, MessageType.code]
    simp [List.take_length, hval, hsplit]

/-- C3 witness: the amended round trip applied to the Hw message with id 32
and the three one-byte fields a, b, c of the serialize_with_payload test. -/
theorem c3_roundtrip_witness :
    Message.deserilize (Message.serialize ⟨.Hw, 32, none, none, [[97], [98], [99]]⟩) =
      .ok ⟨.Hw, 32, some 5, none, [[97], [98], [99]]⟩ :=
  c3_roundtrip_amended .Hw 32 none none [[97], [98], [99]] (Or.inl rfl) (by decide)
    (by decide) (by decide) (by decide) (by decide) (by decide)

/-- C10 witness: a read failing with EmptyBuffer, and a status-free Hw
reply, both drive authenticate into the panic outcome. -/
theorem c10_authenticate_unwrap_panics_witness :
    Blynk.authenticate none (.error .emptyBuffer) = .panic ∧
    Blynk.authenticate none (.ok ⟨.Hw, 1, some 0, none, [[]]⟩) = .panic :=
  ⟨c10_authenticate_unwrap_panics.1 .emptyBuffer,
   c10_authenticate_unwrap_panics.2 ⟨.Hw, 1, some 0, none, [[]]⟩ rfl⟩

end BlynkRs
